import Mathlib

/-!
Shallow embedding of the Timer & Session Log Engine of `src/App.js`
(a React Native stopwatch application).

The engine state consists of the `ClockScreen` component state
(`timerRunning`, `timerSeconds`) together with the shared `activityLog`
array held by the `App` component and mutated only through `addActivity`.
The wall-clock sampler and all presentation chrome carry no state-machine
logic and are not modelled.

`Date.now()` and `new Date().toISOString()` are environment inputs; they
are passed to `handleStartPause` as explicit parameters `nowMs` (the
millisecond clock reading used for `id`) and `nowISO` (the ISO timestamp
string).
-/

/-- A logged activity, as built in `handleStartPause` (src/App.js:52-57). -/
structure Session where
  id : Nat
  description : String
  durationSeconds : Nat
  timestamp : String
  deriving Repr, DecidableEq

/-- The engine state: `timerRunning` and `timerSeconds` from `ClockScreen`
(src/App.js:9-10) plus the shared `activityLog` from `App` (src/App.js:190). -/
structure AppState where
  timerRunning : Bool
  timerSeconds : Nat
  activityLog : List Session
  deriving Repr, DecidableEq

/-- Initial state: `useState(false)`, `useState(0)`, `useState([])`. -/
def initialState : AppState :=
  { timerRunning := false, timerSeconds := 0, activityLog := [] }

/-- `addActivity` (src/App.js:193-196): `setActivityLog(prevLog => [activity, ...prevLog])`. -/
def addActivity (activity : Session) (prevLog : List Session) : List Session :=
  activity :: prevLog

/-- `handleStartPause` (src/App.js:49-64): if the timer is running with
`timerSeconds > 0`, log an activity with `id = Date.now()`,
`description = "Timed Session"`, `durationSeconds = timerSeconds` and the
current ISO timestamp; in every case toggle `timerRunning`.
(The `Alert.alert` call is a presentation side effect and is not modelled.) -/
def handleStartPause (nowMs : Nat) (nowISO : String) (s : AppState) : AppState :=
  let s1 :=
    if s.timerRunning = true ∧ 0 < s.timerSeconds then
      { s with activityLog := (addActivity
          { id := nowMs, description := "Timed Session",
            durationSeconds := s.timerSeconds, timestamp := nowISO }
          s.activityLog) }
    else s
  { s1 with timerRunning := !s1.timerRunning }

/-- One firing of the timer interval (src/App.js:27-29):
`setTimerSeconds(prevSeconds => prevSeconds + 1)`.  The interval is
scheduled exactly while `timerRunning` is true and cleared otherwise
(the effect at src/App.js:25-36 and the `clearInterval` in
`handleReset`), so a firing can only mutate the state while running;
the guard models that cancellation discipline. -/
def tick (s : AppState) : AppState :=
  if s.timerRunning then { s with timerSeconds := s.timerSeconds + 1 } else s

/-- `handleReset` (src/App.js:66-70): clear the interval, set
`timerRunning` to false and `timerSeconds` to 0.  `activityLog` is not
touched. -/
def handleReset (s : AppState) : AppState :=
  { s with timerRunning := false, timerSeconds := 0 }

/-- JavaScript `Array.prototype.join(':')` on a list of strings. -/
def joinColon : List String → String
  | [] => ""
  | [x] => x
  | x :: xs => x ++ ":" ++ joinColon xs

/-- The `v < 10 ? '0' + v : v` step of `formatTime` (src/App.js:45):
decimal string of `v`, prefixed with `'0'` when `v < 10`. -/
def padZero (v : Nat) : String :=
  if v < 10 then "0" ++ toString v else toString v

/-- `formatTime` (src/App.js:39-47): split `totalSeconds` into hours,
minutes, seconds; pad each with `padZero`; join with `':'`. -/
def formatTime (totalSeconds : Nat) : String :=
  joinColon (([totalSeconds / 3600, totalSeconds % 3600 / 60, totalSeconds % 60]).map padZero)

/-- JavaScript `String.prototype.padStart(2, '0')`. -/
def padStartTwo (str : String) : String :=
  if str.length < 2 then String.mk (List.replicate (2 - str.length) '0') ++ str else str

/-- The duration string assembled by `renderActivityItem`
(src/App.js:140-142): each field is `Math.floor`-computed, converted with
`toString()` and padded with `padStart(2, '0')`, joined by the literal
`':'` characters of the JSX text. -/
def renderDurationText (durationSeconds : Nat) : String :=
  padStartTwo (toString (durationSeconds / 3600)) ++ ":" ++
    padStartTwo (toString (durationSeconds % 3600 / 60)) ++ ":" ++
    padStartTwo (toString (durationSeconds % 60))

/-- An externally triggered event: a press of the start/pause button
(with the clock readings observed during the handler), a timer-interval
firing, or a press of the reset button. -/
inductive Op where
  | startPause (nowMs : Nat) (nowISO : String)
  | tick
  | reset
  deriving Repr, DecidableEq

/-- Apply one event to the state. -/
def applyOp (s : AppState) : Op → AppState
  | Op.startPause nowMs nowISO => handleStartPause nowMs nowISO s
  | Op.tick => tick s
  | Op.reset => handleReset s

/-- Run a sequence of events from a given state. -/
def runFrom (s : AppState) (ops : List Op) : AppState :=
  ops.foldl applyOp s

/-- Run a sequence of events from the initial state. -/
def run (ops : List Op) : AppState :=
  runFrom initialState ops

/-! ### Helper lemmas on decimal formatting -/

/-- `toString` on `Nat` is `Nat.repr`. -/
theorem toString_nat_eq_repr (v : Nat) : toString v = Nat.repr v := rfl

/-- With at least one unit of fuel, `Nat.toDigitsCore` emits at least one
digit character. -/
theorem one_le_toDigitsCore_length (b f n : Nat) :
    1 ≤ (Nat.toDigitsCore b (f + 1) n []).length := by
  rw [Nat.toDigitsCore]
  split
  · simp
  · rw [Nat.toDigitsCore_lens_eq]
    omega

/-- A natural number of at least two decimal digits has a decimal digit
list of length at least two. -/
theorem two_le_toDigits_length (n : Nat) (h : 10 ≤ n) :
    2 ≤ (Nat.toDigits 10 n).length := by
  obtain ⟨f, rfl⟩ : ∃ f, n = f + 1 := ⟨n - 1, by omega⟩
  show 2 ≤ (Nat.toDigitsCore 10 (f + 1 + 1) (f + 1) []).length
  rw [Nat.toDigitsCore]
  have hne : ¬((f + 1) / 10 = 0) := by omega
  rw [if_neg hne, Nat.toDigitsCore_lens_eq]
  have := one_le_toDigitsCore_length 10 f ((f + 1) / 10)
  omega

/-- A natural number that is at least `10` prints to a string of length at
least two. -/
theorem two_le_repr_length (n : Nat) (h : 10 ≤ n) : 2 ≤ (Nat.repr n).length := by
  have := two_le_toDigits_length n h
  simpa [Nat.repr, String.length, List.asString] using this

/-- The inline padding of `formatTime` (`v < 10 ? '0' + v : v`) and the
`toString().padStart(2, '0')` padding of `renderActivityItem` produce the
same string on every natural number. -/
theorem padZero_eq_padStartTwo (v : Nat) : padZero v = padStartTwo (toString v) := by
  by_cases h : v < 10
  · interval_cases v <;> rfl
  · have h2 : 2 ≤ (toString v).length := by
      rw [toString_nat_eq_repr]
      exact two_le_repr_length v (by omega)
    unfold padZero padStartTwo
    rw [if_neg h, if_neg (by omega)]

/-- String concatenation is associative. -/
theorem string_append_assoc (a b c : String) : a ++ b ++ c = a ++ (b ++ c) := by
  obtain ⟨la⟩ := a
  obtain ⟨lb⟩ := b
  obtain ⟨lc⟩ := c
  show String.mk (la ++ lb ++ lc) = String.mk (la ++ (lb ++ lc))
  rw [List.append_assoc]

/-! ### Projection lemmas for the handlers -/

/-- The log after a start/pause press: a new session is prepended exactly
when the timer was running with a positive count. -/
theorem handleStartPause_activityLog (nowMs : Nat) (nowISO : String) (s : AppState) :
    (handleStartPause nowMs nowISO s).activityLog =
      if s.timerRunning = true ∧ 0 < s.timerSeconds then
        { id := nowMs, description := "Timed Session",
          durationSeconds := s.timerSeconds, timestamp := nowISO } :: s.activityLog
      else s.activityLog := by
  simp only [handleStartPause, addActivity]
  split <;> rfl

/-- A start/pause press always negates `timerRunning`. -/
theorem handleStartPause_timerRunning (nowMs : Nat) (nowISO : String) (s : AppState) :
    (handleStartPause nowMs nowISO s).timerRunning = !s.timerRunning := by
  simp only [handleStartPause]
  split <;> rfl

/-- A start/pause press never changes `timerSeconds`. -/
theorem handleStartPause_timerSecondsEq (nowMs : Nat) (nowISO : String) (s : AppState) :
    (handleStartPause nowMs nowISO s).timerSeconds = s.timerSeconds := by
  simp only [handleStartPause]
  split <;> rfl

/-- An interval firing never changes the log. -/
theorem tick_activityLog (s : AppState) : (tick s).activityLog = s.activityLog := by
  simp only [tick]
  split <;> rfl

/-! ### Claim theorems -/

/-- C1: invoking the start/pause handler while running with
`timerSeconds > 0` finalizes exactly one session — with
`durationSeconds` equal to the current `timerSeconds` — and inserts it
at the head of the log; invoking it while running with
`timerSeconds = 0` leaves the log unchanged. -/
theorem stop_finalizes_one_session (s : AppState) (nowMs : Nat) (nowISO : String)
    (h : s.timerRunning = true) :
    (0 < s.timerSeconds →
      (handleStartPause nowMs nowISO s).activityLog =
        { id := nowMs, description := "Timed Session",
          durationSeconds := s.timerSeconds, timestamp := nowISO } :: s.activityLog)
  ∧ (s.timerSeconds = 0 →
      (handleStartPause nowMs nowISO s).activityLog = s.activityLog) := by
  constructor
  · intro hpos
    rw [handleStartPause_activityLog, if_pos ⟨h, hpos⟩]
  · intro hz
    rw [handleStartPause_activityLog, if_neg (by simp [hz])]

/-- Witness for C1 at the running state with 3 elapsed seconds and empty log. -/
theorem stop_finalizes_one_session_witness :
    (0 < (AppState.mk true 3 []).timerSeconds →
      (handleStartPause 42 "2025-01-01T00:00:00.000Z" (AppState.mk true 3 [])).activityLog =
        { id := 42, description := "Timed Session",
          durationSeconds := (AppState.mk true 3 []).timerSeconds,
          timestamp := "2025-01-01T00:00:00.000Z" } :: (AppState.mk true 3 []).activityLog)
  ∧ ((AppState.mk true 3 []).timerSeconds = 0 →
      (handleStartPause 42 "2025-01-01T00:00:00.000Z" (AppState.mk true 3 [])).activityLog =
        (AppState.mk true 3 []).activityLog) :=
  stop_finalizes_one_session (AppState.mk true 3 []) 42 "2025-01-01T00:00:00.000Z" rfl

/-- C4: from every state, `handleReset` yields `timerSeconds = 0` and
`timerRunning = false`, leaves the log unchanged, and a subsequently
firing tick is a no-op (the interval has been cancelled). -/
theorem reset_clears_without_logging (s : AppState) :
    (handleReset s).timerSeconds = 0
  ∧ (handleReset s).timerRunning = false
  ∧ (handleReset s).activityLog = s.activityLog
  ∧ tick (handleReset s) = handleReset s := by
  refine ⟨rfl, rfl, rfl, ?_⟩
  simp [tick, handleReset]

/-- C6: `addActivity` produces exactly `session :: log`, and no engine
event ever mutates or removes an existing log entry: the previous log is
a suffix of the log after every event. -/
theorem log_is_append_at_head_only (s : AppState) (a : Session) :
    addActivity a s.activityLog = a :: s.activityLog
  ∧ ∀ op : Op, List.IsSuffix s.activityLog (applyOp s op).activityLog := by
  refine ⟨rfl, ?_⟩
  intro op
  cases op with
  | startPause nowMs nowISO =>
    show List.IsSuffix s.activityLog (handleStartPause nowMs nowISO s).activityLog
    rw [handleStartPause_activityLog]
    split
    · exact List.suffix_cons _ _
    · exact List.suffix_refl _
  | tick =>
    show List.IsSuffix s.activityLog (tick s).activityLog
    rw [tick_activityLog]
  | reset =>
    exact List.suffix_refl _

/-- C9: the start/pause handler never modifies `timerSeconds` — whether
it starts, pauses, or pauses-and-logs — so a stop that records a session
does not reset the counter; `timerSeconds` is cleared only by
`handleReset`, and a tick never clears a nonzero counter. -/
theorem startPause_preserves_elapsed (s : AppState) (nowMs : Nat) (nowISO : String) :
    (handleStartPause nowMs nowISO s).timerSeconds = s.timerSeconds
  ∧ (s.timerSeconds ≠ 0 →
      (handleStartPause nowMs nowISO s).timerSeconds ≠ 0 ∧ (tick s).timerSeconds ≠ 0)
  ∧ (handleReset s).timerSeconds = 0 := by
  refine ⟨handleStartPause_timerSecondsEq nowMs nowISO s, ?_, rfl⟩
  intro hz
  constructor
  · rw [handleStartPause_timerSecondsEq]
    exact hz
  · simp only [tick]
    split
    · simp
    · exact hz

/-- Witness for C9 at the paused state with 2 elapsed seconds. -/
theorem startPause_preserves_elapsed_witness :
    (handleStartPause 0 "W" (AppState.mk false 2 [])).timerSeconds = 2
  ∧ ((handleStartPause 0 "W" (AppState.mk false 2 [])).timerSeconds ≠ 0
      ∧ (tick (AppState.mk false 2 [])).timerSeconds ≠ 0)
  ∧ (handleReset (AppState.mk false 2 [])).timerSeconds = 0 := by
  have h := startPause_preserves_elapsed (AppState.mk false 2 []) 0 "W"
  exact ⟨h.1, h.2.1 (by decide), h.2.2⟩

/-- C10: every start/pause press negates `timerRunning`; in particular a
press while not running always transitions to running and never records
a session, whatever the value of `timerSeconds`. -/
theorem startPause_is_a_toggle (s : AppState) (nowMs : Nat) (nowISO : String) :
    (handleStartPause nowMs nowISO s).timerRunning = !s.timerRunning
  ∧ (s.timerRunning = false →
      (handleStartPause nowMs nowISO s).timerRunning = true
    ∧ (handleStartPause nowMs nowISO s).activityLog = s.activityLog) := by
  refine ⟨handleStartPause_timerRunning nowMs nowISO s, ?_⟩
  intro h
  constructor
  · rw [handleStartPause_timerRunning, h]
    rfl
  · rw [handleStartPause_activityLog, if_neg (by simp [h])]

/-- Witness for C10 at the paused state with 9 elapsed seconds. -/
theorem startPause_is_a_toggle_witness :
    (handleStartPause 5 "W5" (AppState.mk false 9 [])).timerRunning =
      !(AppState.mk false 9 []).timerRunning
  ∧ ((handleStartPause 5 "W5" (AppState.mk false 9 [])).timerRunning = true
    ∧ (handleStartPause 5 "W5" (AppState.mk false 9 [])).activityLog =
        (AppState.mk false 9 []).activityLog) := by
  have h := startPause_is_a_toggle (AppState.mk false 9 []) 5 "W5"
  exact ⟨h.1, h.2 rfl⟩

/-- C3: `formatTime` renders its argument as `HH:MM:SS` with
`hours = totalSeconds / 3600`, `minutes = totalSeconds % 3600 / 60`,
`seconds = totalSeconds % 60`, each field being the decimal numeral
zero-padded to at least two digits, the hours field growing beyond two
digits without wraparound; and the four concrete values of the spec. -/
theorem formatTime_fields_and_examples (totalSeconds : Nat) :
    formatTime totalSeconds =
      padStartTwo (Nat.repr (totalSeconds / 3600)) ++ ":" ++
        padStartTwo (Nat.repr (totalSeconds % 3600 / 60)) ++ ":" ++
        padStartTwo (Nat.repr (totalSeconds % 60))
  ∧ formatTime 0 = "00:00:00" ∧ formatTime 59 = "00:00:59"
  ∧ formatTime 3600 = "01:00:00" ∧ formatTime 3661 = "01:01:01" := by
  refine ⟨?_, by decide, by decide, by decide, by decide⟩
  simp only [formatTime, List.map, joinColon, padZero_eq_padStartTwo, toString_nat_eq_repr,
    string_append_assoc]

/-- C7: the duration string assembled by the session-log renderer equals
the output of `formatTime` on every duration. -/
theorem renderDuration_eq_formatTime (durationSeconds : Nat) :
    renderDurationText durationSeconds = formatTime durationSeconds := by
  simp only [renderDurationText, formatTime, List.map, joinColon, padZero_eq_padStartTwo,
    string_append_assoc]

/-- Event sequence of the end-to-end scenario, first half:
reset, start, five ticks, stop.  Clock readings are arbitrary concrete
values consistent with a forward-moving clock. -/
def scenarioOps1 : List Op :=
  [Op.reset, Op.startPause 1000 "T1", Op.tick, Op.tick, Op.tick, Op.tick, Op.tick,
    Op.startPause 7000 "T2"]

/-- Event sequence of the end-to-end scenario, both halves:
the first half followed by start, three ticks, stop. -/
def scenarioOps2 : List Op :=
  scenarioOps1 ++ [Op.startPause 9000 "T3", Op.tick, Op.tick, Op.tick, Op.startPause 13000 "T4"]

/-- C2 counterexample: after the full scenario the log durations are
`[8, 5]` — the head entry records the cumulative 8 seconds, not the 3
seconds the claim states. -/
theorem scenario_head_duration_not_three :
    (run scenarioOps2).activityLog.map Session.durationSeconds = [8, 5]
  ∧ (run scenarioOps2).activityLog.map Session.durationSeconds ≠ [3, 5] := by
  constructor
  · decide
  · decide

/-- C2 amended: the first half yields `formatTime timerSeconds = "00:00:05"`
and a single log entry of duration 5; the full scenario yields exactly two
entries, the head with `durationSeconds = 8` (the counter is not cleared by
a stop, so the second session records the cumulative total) and the
previous entry still with `durationSeconds = 5`. -/
theorem scenario_end_to_end :
    formatTime (run scenarioOps1).timerSeconds = "00:00:05"
  ∧ (run scenarioOps1).activityLog.map Session.durationSeconds = [5]
  ∧ (run scenarioOps2).activityLog.length = 2
  ∧ (run scenarioOps2).activityLog.map Session.durationSeconds = [8, 5] := by
  refine ⟨by decide, by decide, by decide, by decide⟩

/-- A session with `durationSeconds = 0`, as could only arise outside the
normal stop path. -/
def zeroSession : Session :=
  { id := 0, description := "Timed Session", durationSeconds := 0, timestamp := "T0" }

/-- C5 counterexample: `addActivity` applied to a zero-duration session
and the empty log returns a one-element log, not the unchanged empty
log: the record operation itself is not a no-op on zero durations. -/
theorem record_zero_duration_not_noop :
    zeroSession.durationSeconds = 0 ∧ addActivity zeroSession [] ≠ [] := by
  constructor
  · rfl
  · decide

/-- C5 amended: `addActivity` inserts a zero-duration session at the head
like any other (it performs no validation and raises no error); the silent
no-op for zero durations sits in the stop path instead — the start/pause
handler never calls `addActivity` when `timerSeconds = 0`. -/
theorem record_zero_duration_inserts (a : Session) (log : List Session) (s : AppState)
    (nowMs : Nat) (nowISO : String) (hz : a.durationSeconds = 0) (hs : s.timerSeconds = 0) :
    addActivity a log = a :: log
  ∧ (handleStartPause nowMs nowISO s).activityLog = s.activityLog := by
  refine ⟨rfl, ?_⟩
  rw [handleStartPause_activityLog, if_neg (by simp [hs])]

/-- Witness for C5 (amended) at the zero-duration session and a running
zero-elapsed state. -/
theorem record_zero_duration_inserts_witness :
    addActivity zeroSession [] = zeroSession :: []
  ∧ (handleStartPause 7 "T7" (AppState.mk true 0 [zeroSession])).activityLog =
      (AppState.mk true 0 [zeroSession]).activityLog :=
  record_zero_duration_inserts zeroSession [] (AppState.mk true 0 [zeroSession]) 7 "T7" rfl rfl

/-- Event sequence in which three start/pause presses happen within the
same `Date.now()` millisecond (reading 200): pause with one elapsed second
logs a session with id 200, start again, pause again and log a second
session that also gets id 200. -/
def collisionOps : List Op :=
  [Op.startPause 100 "T100", Op.tick, Op.startPause 200 "T200",
    Op.startPause 200 "T200", Op.startPause 200 "T200"]

/-- C8: two sessions created in the same process run can share an id —
`Date.now()` collides when two stops fall in the same millisecond, so the
log ends with two entries both carrying id 200 and the id list is not
duplicate-free. -/
theorem id_collision_within_one_millisecond :
    (run collisionOps).activityLog.length = 2
  ∧ (run collisionOps).activityLog.map Session.id = [200, 200]
  ∧ ¬ ((run collisionOps).activityLog.map Session.id).Nodup := by
  refine ⟨by decide, by decide, by decide⟩
